import Mathlib

/-!
Shallow embedding of the `medicale-ai-backend` inference pipeline and its
persistence contract, translated from the Python sources under `app/`
(`app/services/ml_model.py`, `app/models/models.py`, `app/main.py`,
`app/services/security.py`).  External collaborators — the PIL image
decoder, the trained keras model, the database driver, bcrypt and the JWT
encoder — are modelled as explicit function parameters, exactly as the
specification treats them (opaque collaborators); everything else follows
the Python code line by line.  Quantities Python stores as floats are
modelled as exact rationals, and wall-clock readings are passed in as
explicit parameters.
-/

namespace MedAI

/-- A decoded PIL image: `width` and `height` are the two components of
`image.size`, `mode` is the channel-layout string (for example `"RGB"`),
and `content` is an abstract token standing for the pixel payload held by
the external imaging library. -/
structure PILImage where
  width : Nat
  height : Nat
  mode : String
  content : Nat
deriving DecidableEq

/-- The external imaging operations used by
`LungDiseasePredictor.preprocess_image` (ml_model.py lines 43-64):
`decode` is `PIL.Image.open` on the raw upload bytes (`none` when the bytes
are not a decodable image, in which case the Python code raises),
`convertRGB` is `image.convert("RGB")` and `resize128` is
`image.resize((128, 128))`. -/
structure PixEnv where
  decode : List Nat → Option PILImage
  convertRGB : PILImage → PILImage
  resize128 : PILImage → PILImage

/-- The nine fixed class labels of `LungDiseasePredictor.class_names`
(ml_model.py lines 17-27); these strings are identical to the values of the
`DiseaseClass` enum in models.py. -/
def class_names : List String :=
  ["00 Anatomia Normal",
   "01 Processos Inflamatórios Pulmonares (Pneumonia)",
   "02 Maior Densidade (Derrame Pleural, Consolidação Atelectasica, Hidrotorax, Empiema)",
   "03 Menor Densidade (Pneumotorax, Pneumomediastino, Pneumoperitonio)",
   "04 Doenças Pulmonares Obstrutivas (Enfisema, Broncopneumonia, Bronquiectasia, Embolia)",
   "05 Doenças Infecciosas Degenerativas (Tuberculose, Sarcoidose, Proteinose, Fibrose)",
   "06 Lesões Encapsuladas (Abscessos, Nódulos, Cistos, Massas Tumorais, Metastases)",
   "07 Alterações de Mediastino (Pericardite, Malformações Arteriovenosas, Linfonodomegalias)",
   "08 Alterações do Tórax (Atelectasias, Malformações, Agenesia, Hipoplasias)"]

/-- Semantics of `np.argmax` on a one-dimensional array: the first index at
which the maximum value occurs (ml_model.py line 84). -/
def np_argmax (l : List ℚ) : Nat :=
  l.findIdx (fun x => l.all (fun y => decide (y ≤ x)))

/-- The dictionary returned by `LungDiseasePredictor.predict`
(ml_model.py lines 96-102).  `all_predictions` keeps the insertion order of
the Python dict comprehension, namely the order of `class_names`. -/
structure PredictOutput where
  predicted_class : String
  confidence_score : ℚ
  all_predictions : List (String × ℚ)
  processing_time : ℚ
  original_size : Nat × Nat
deriving DecidableEq

/-- The predictor object: `model` is `self.model`, which is `none` when no
trained artifact was loaded at startup.  A loaded model is the opaque
composition of the numpy array conversion, normalization, batching and
`self.model.predict(...)[0]`: a function from the preprocessed image to the
output probability vector. -/
structure Predictor where
  model : Option (PILImage → List ℚ)

/-- Result type of `LungDiseasePredictor.predict`: either the returned
dictionary or a raised `ValueError` carrying a message. -/
inductive MLResult where
  | ok : PredictOutput → MLResult
  | raises : String → MLResult
deriving DecidableEq

/-- `LungDiseasePredictor.preprocess_image` (ml_model.py lines 43-67):
decode the bytes, remember `image.size` as the original size, convert to
RGB when the mode differs, and resize to 128 by 128.  A failure anywhere is
re-raised as `ValueError("Error preprocessing image: ...")`. -/
def preprocess_image (env : PixEnv) (image_data : List Nat) :
    Except String (PILImage × (Nat × Nat)) :=
  match env.decode image_data with
  | none => Except.error "Error preprocessing image"
  | some image0 =>
    let original_size := (image0.width, image0.height)
    let image1 := if image0.mode = "RGB" then image0 else env.convertRGB image0
    let image2 := env.resize128 image1
    Except.ok (image2, original_size)

/-- `LungDiseasePredictor.predict` (ml_model.py lines 69-105).  `t_start`
and `t_end` are the two `time.time()` readings taken at entry and after
inference; `processing_time` is their difference.  The two error branches
inside the guard model the `IndexError` cases the catch-all would convert
to a `ValueError` (they are unreachable for a model that outputs nine
probabilities). -/
def predict (env : PixEnv) (p : Predictor) (image_data : List Nat)
    (t_start t_end : ℚ) : MLResult :=
  match p.model with
  | none => MLResult.raises "Model not loaded. Please ensure the model file exists."
  | some m =>
    match preprocess_image env image_data with
    | Except.error e => MLResult.raises ("Error making prediction: " ++ e)
    | Except.ok (processed, original_size) =>
      let preds := m processed
      if preds.isEmpty then
        MLResult.raises "Error making prediction: argmax of an empty sequence"
      else
        let idx := np_argmax preds
        if idx < class_names.length then
          MLResult.ok
            { predicted_class := class_names.getD idx "",
              confidence_score := preds.getD idx 0,
              all_predictions := class_names.zip preds,
              processing_time := t_end - t_start,
              original_size := original_size }
        else MLResult.raises "Error making prediction: list index out of range"

/-- The image an input decodes to, after the mode conversion and the resize
of `preprocess_image`. -/
def proc (env : PixEnv) (img : PILImage) : PILImage :=
  env.resize128 (if img.mode = "RGB" then img else env.convertRGB img)

lemma preprocess_image_eq (env : PixEnv) (image_data : List Nat) (img : PILImage)
    (hdec : env.decode image_data = some img) :
    preprocess_image env image_data = Except.ok (proc env img, (img.width, img.height)) := by
  simp [preprocess_image, hdec, proc]

lemma exists_max_mem (l : List ℚ) (h : l ≠ []) : ∃ x ∈ l, ∀ y ∈ l, y ≤ x := by
  induction l with
  | nil => exact absurd rfl h
  | cons a t ih =>
    cases t with
    | nil =>
      refine ⟨a, List.mem_singleton_self a, ?_⟩
      intro y hy
      rw [List.mem_singleton] at hy
      exact le_of_eq hy
    | cons b t2 =>
      obtain ⟨x, hx, hmax⟩ := ih (by simp)
      by_cases hax : a ≤ x
      · refine ⟨x, List.mem_cons_of_mem a hx, ?_⟩
        intro y hy
        rcases List.mem_cons.mp hy with h1 | h2
        · exact h1 ▸ hax
        · exact hmax y h2
      · refine ⟨a, List.mem_cons_self a _, ?_⟩
        intro y hy
        rcases List.mem_cons.mp hy with h1 | h2
        · exact le_of_eq h1
        · exact le_trans (hmax y h2) (le_of_not_le hax)

lemma np_argmax_lt_length (l : List ℚ) (h : l ≠ []) : np_argmax l < l.length := by
  apply List.findIdx_lt_length_of_exists
  obtain ⟨x, hx, hmax⟩ := exists_max_mem l h
  refine ⟨x, hx, ?_⟩
  simp only [List.all_eq_true, decide_eq_true_eq]
  exact hmax

lemma le_np_argmax_val (l : List ℚ) (hlt : np_argmax l < l.length) :
    ∀ y ∈ l, y ≤ l[np_argmax l] := by
  have hfi : np_argmax l = l.findIdx (fun x => l.all (fun y => decide (y ≤ x))) := rfl
  have hp := @List.findIdx_getElem _ (fun x => l.all (fun y => decide (y ≤ x))) l (by rw [← hfi]; exact hlt)
  simp only [List.all_eq_true, decide_eq_true_eq] at hp
  intro y hy
  exact hp y hy

lemma class_names_length : class_names.length = 9 := rfl

/-- Symbolic success form of `predict`: when a model is loaded, the bytes
decode, and the model outputs a vector of nine probabilities, `predict`
returns the dictionary built from the argmax of that vector. -/
lemma predict_ok_form (env : PixEnv) (p : Predictor) (m : PILImage → List ℚ)
    (image_data : List Nat) (t_start t_end : ℚ) (img : PILImage)
    (hm : p.model = some m)
    (hdec : env.decode image_data = some img)
    (hlen : ∀ x, (m x).length = 9) :
    predict env p image_data t_start t_end = MLResult.ok
      { predicted_class := class_names.getD (np_argmax (m (proc env img))) "",
        confidence_score := (m (proc env img)).getD (np_argmax (m (proc env img))) 0,
        all_predictions := class_names.zip (m (proc env img)),
        processing_time := t_end - t_start,
        original_size := (img.width, img.height) } := by
  have hne : m (proc env img) ≠ [] := by
    intro hnil
    have := hlen (proc env img)
    rw [hnil] at this
    simp at this
  have hempty : (m (proc env img)).isEmpty = false := List.isEmpty_eq_false.mpr hne
  have hlt : np_argmax (m (proc env img)) < class_names.length := by
    rw [class_names_length, ← hlen (proc env img)]
    exact np_argmax_lt_length _ hne
  rw [predict, hm, preprocess_image_eq env image_data img hdec]
  simp [hempty, hlt]

/-- Claim C1: for an input whose bytes decode to a valid image, with a model
loaded whose output is a probability vector over the nine classes (nine
entries summing to one), `predict` succeeds and returns `all_predictions`
as a mapping over exactly the nine fixed class labels whose values sum to
one; `predicted_class` paired with `confidence_score` is one of the entries
of that mapping, and `confidence_score` is the maximum probability in the
mapping. -/
theorem predict_distribution_contract (env : PixEnv) (p : Predictor)
    (m : PILImage → List ℚ) (image_data : List Nat) (t_start t_end : ℚ)
    (img : PILImage)
    (hm : p.model = some m)
    (hdec : env.decode image_data = some img)
    (hlen : ∀ x, (m x).length = 9)
    (hsum : ∀ x, (m x).sum = 1) :
    ∃ out : PredictOutput, predict env p image_data t_start t_end = MLResult.ok out ∧
      out.all_predictions.map Prod.fst = class_names ∧
      (out.all_predictions.map Prod.snd).sum = 1 ∧
      (out.predicted_class, out.confidence_score) ∈ out.all_predictions ∧
      ∀ kv ∈ out.all_predictions, kv.2 ≤ out.confidence_score := by
  have hform := predict_ok_form env p m image_data t_start t_end img hm hdec hlen
  refine ⟨_, hform, ?_, ?_, ?_, ?_⟩
  · exact List.map_fst_zip class_names (m (proc env img))
      (by rw [class_names_length, hlen])
  · rw [List.map_snd_zip class_names (m (proc env img))
      (by rw [class_names_length, hlen])]
    exact hsum (proc env img)
  · have hne : m (proc env img) ≠ [] := by
      intro hnil
      have := hlen (proc env img)
      rw [hnil] at this
      simp at this
    have hlt : np_argmax (m (proc env img)) < (m (proc env img)).length :=
      np_argmax_lt_length _ hne
    have hlt9 : np_argmax (m (proc env img)) < class_names.length := by
      rw [class_names_length, ← hlen (proc env img)]
      exact hlt
    have hltz : np_argmax (m (proc env img)) < (class_names.zip (m (proc env img))).length := by
      rw [List.length_zip, class_names_length, hlen]
      simpa [hlen] using hlt
    have hz : (class_names.zip (m (proc env img)))[np_argmax (m (proc env img))] =
        (class_names[np_argmax (m (proc env img))],
         (m (proc env img))[np_argmax (m (proc env img))]) := List.getElem_zip
    simp only [List.getD_eq_getElem _ _ hlt9, List.getD_eq_getElem _ _ hlt]
    rw [← hz]
    exact List.getElem_mem hltz
  · intro kv hkv
    have hmem := List.of_mem_zip hkv
    have hne : m (proc env img) ≠ [] := by
      intro hnil
      have := hlen (proc env img)
      rw [hnil] at this
      simp at this
    have hlt : np_argmax (m (proc env img)) < (m (proc env img)).length :=
      np_argmax_lt_length _ hne
    simp only [List.getD_eq_getElem _ _ hlt]
    exact le_np_argmax_val (m (proc env img)) hlt kv.2 hmem.2

/-- A concrete 256 by 256 RGB image used by witnesses. -/
def img0 : PILImage :=
  { width := 256, height := 256, mode := "RGB", content := 0 }

/-- A concrete imaging environment used by witnesses: every byte string
decodes to `img0`. -/
def env0 : PixEnv :=
  { decode := fun _ => some img0,
    convertRGB := fun i => { i with mode := "RGB" },
    resize128 := fun i => { i with width := 128, height := 128 } }

/-- A concrete loaded model used by witnesses: it always outputs the
point-mass distribution on the first class. -/
def m0 : PILImage → List ℚ := fun _ => [1, 0, 0, 0, 0, 0, 0, 0, 0]

/-- Witness for claim C1 at a concrete environment, model and input. -/
theorem predict_distribution_contract_witness :
    ∃ out : PredictOutput, predict env0 ⟨some m0⟩ [0] 0 1 = MLResult.ok out ∧
      out.all_predictions.map Prod.fst = class_names ∧
      (out.all_predictions.map Prod.snd).sum = 1 ∧
      (out.predicted_class, out.confidence_score) ∈ out.all_predictions ∧
      ∀ kv ∈ out.all_predictions, kv.2 ≤ out.confidence_score :=
  predict_distribution_contract env0 ⟨some m0⟩ m0 [0] 0 1 img0
    rfl rfl (fun _ => rfl) (fun _ => by simp [m0])

/-- Erase the wall-clock-dependent field of a predict output. -/
def strip_time (out : PredictOutput) : PredictOutput :=
  { out with processing_time := 0 }

/-- Erase the wall-clock-dependent field of a predict result. -/
def strip_time_result : MLResult → MLResult
  | MLResult.ok out => MLResult.ok (strip_time out)
  | MLResult.raises e => MLResult.raises e

/-- Claim C3, counterexample: with the concrete environment `env0`, the
concrete loaded model `m0` and identical image bytes, two calls to
`predict` whose wall-clock readings differ return different dictionaries,
because `processing_time` is the measured wall-clock duration.  So the
claim that every call returns the same dictionary, including every field,
is false. -/
theorem predict_not_pointwise_deterministic :
    predict env0 ⟨some m0⟩ [0] 0 1 ≠ predict env0 ⟨some m0⟩ [0] 0 2 := by
  have h1 := predict_ok_form env0 ⟨some m0⟩ m0 [0] 0 1 img0 rfl rfl (fun _ => rfl)
  have h2 := predict_ok_form env0 ⟨some m0⟩ m0 [0] 0 2 img0 rfl rfl (fun _ => rfl)
  rw [h1, h2]
  intro h
  have hout := MLResult.ok.inj h
  have ht : (1 : ℚ) - 0 = 2 - 0 := congrArg PredictOutput.processing_time hout
  norm_num at ht

/-- Claim C3, amended: for identical image bytes and a fixed loaded model,
every call to `predict` returns the same result on every field except
`processing_time`; that field is the wall-clock duration of the call and
may differ between calls. -/
theorem predict_deterministic_up_to_timing (env : PixEnv) (p : Predictor)
    (image_data : List Nat) (t_start t_end u_start u_end : ℚ) :
    strip_time_result (predict env p image_data t_start t_end) =
      strip_time_result (predict env p image_data u_start u_end) := by
  rw [predict, predict]
  cases p.model with
  | none => rfl
  | some m =>
    cases preprocess_image env image_data with
    | error e => rfl
    | ok pr =>
      obtain ⟨processed, original_size⟩ := pr
      by_cases hemp : (m processed).isEmpty
      · simp [hemp]
      · by_cases hlt : np_argmax (m processed) < class_names.length
        · simp [hemp, hlt, strip_time_result, strip_time]
        · simp [hemp, hlt, strip_time_result]

/-! ## Data model (`app/models/models.py`) -/

/-- The `PredictionResult` document (models.py lines 21-63).  `id` is the
string form of the generated ObjectId, `created_at` is a timestamp,
`predicted_class` holds the value string of the `DiseaseClass` enum member,
and probabilities are exact rationals. -/
structure PredictionResult where
  id : String
  created_at : Nat
  user_name : Option String
  user_email : Option String
  image_filename : Option String
  image_url : Option String
  image_size : Nat × Nat
  predicted_class : String
  confidence_score : ℚ
  all_predictions : List (String × ℚ)
  processing_time : ℚ
  model_version : String
deriving DecidableEq

/-- The `User` document (models.py lines 66-89). -/
structure User where
  id : String
  created_at : Nat
  name : String
  email : String
  total_predictions : Nat
  hashed_password : Option String
  is_active : Bool
  is_admin : Bool
deriving DecidableEq

/-- Constructing a `PredictionResult` without an explicit `created_at`.
Line 26 of models.py declares `created_at: datetime = datetime.now()` as a
plain class-body default, so the expression `datetime.now()` is evaluated
exactly once, when the class body runs at import time; every instance built
without an explicit value receives that single captured timestamp,
`classDefTime`.  The wall-clock time at the moment of construction,
`_callTime`, is not consulted by the default.  `model_version` likewise
takes its class-body default `"1.0.0"`. -/
def mkPredictionResultDefault (classDefTime _callTime : Nat) (id : String)
    (user_name user_email image_filename image_url : Option String)
    (image_size : Nat × Nat) (predicted_class : String)
    (confidence_score : ℚ) (all_predictions : List (String × ℚ))
    (processing_time : ℚ) : PredictionResult :=
  { id := id, created_at := classDefTime, user_name := user_name,
    user_email := user_email, image_filename := image_filename,
    image_url := image_url, image_size := image_size,
    predicted_class := predicted_class, confidence_score := confidence_score,
    all_predictions := all_predictions, processing_time := processing_time,
    model_version := "1.0.0" }

/-- Constructing a `User` without an explicit `created_at`: line 70 of
models.py declares the same import-time-evaluated `datetime.now()` default,
and lines 84-89 give the defaults `total_predictions = 0`,
`is_active = True`, `is_admin = False`. -/
def mkUserDefault (classDefTime _callTime : Nat) (id name email : String)
    (hashed_password : Option String) : User :=
  { id := id, created_at := classDefTime, name := name, email := email,
    total_predictions := 0, hashed_password := hashed_password,
    is_active := true, is_admin := false }

/-- Claim C2: any two `PredictionResult` documents, and any two `User`
documents, constructed in the same process without an explicitly supplied
`created_at` have equal `created_at` fields, whatever the wall-clock times
of the two constructions and whatever their other fields: the default
`datetime.now()` was evaluated once at class-definition time. -/
theorem created_at_default_evaluated_once (classDefTime t1 t2 : Nat)
    (id1 id2 : String) (un1 un2 ue1 ue2 if1 if2 iu1 iu2 : Option String)
    (is1 is2 : Nat × Nat) (pc1 pc2 : String) (cs1 cs2 : ℚ)
    (ap1 ap2 : List (String × ℚ)) (pt1 pt2 : ℚ)
    (nm1 nm2 em1 em2 : String) (hp1 hp2 : Option String) :
    (mkPredictionResultDefault classDefTime t1 id1 un1 ue1 if1 iu1 is1 pc1 cs1 ap1 pt1).created_at =
      (mkPredictionResultDefault classDefTime t2 id2 un2 ue2 if2 iu2 is2 pc2 cs2 ap2 pt2).created_at ∧
    (mkUserDefault classDefTime t1 id1 nm1 em1 hp1).created_at =
      (mkUserDefault classDefTime t2 id2 nm2 em2 hp2).created_at :=
  ⟨rfl, rfl⟩

/-! ## API layer (`app/main.py`) -/

/-- Semantics of Python `s.startswith(p)`: the first `len(p)` characters of
`s` equal `p`. -/
def startswith (s p : String) : Bool :=
  decide (s.toList.take p.toList.length = p.toList)

/-- The normalization `x = x or None` applied to the optional form fields
(main.py lines 84-85): Python maps the empty string to `None`. -/
def normOpt : Option String → Option String
  | none => none
  | some s => if s = "" then none else some s

/-- Replace the first element satisfying the test, modelling a `save()` of
the single document returned by `find_one`. -/
def updateFirst {α : Type} (p : α → Bool) (f : α → α) : List α → List α
  | [] => []
  | a :: t => if p a then f a :: t else a :: updateFirst p f t

/-- The `UploadFile` and form fields of `POST /predict` (main.py
lines 71-75): the declared content type, the client-supplied filename, the
raw bytes and the two optional form fields. -/
structure PredictRequest where
  content_type : String
  filename : Option String
  bytes : List Nat
  user_name : Option String
  user_email : Option String
deriving DecidableEq

/-- The response DTO `PredictionResponse` (models.py lines 98-111). -/
structure PredictionResponse where
  prediction_id : String
  predicted_class : String
  confidence_score : ℚ
  all_predictions : List (String × ℚ)
  processing_time : ℚ
  created_at : Nat
  image_url : Option String
deriving DecidableEq

/-- Result of an endpoint handler: a value, or an `HTTPException` carrying
a status code and a detail message. -/
inductive ApiResult (α : Type) where
  | ok : α → ApiResult α
  | err : Nat → String → ApiResult α
deriving DecidableEq

/-- The persistent state the handlers touch: the `predictions` and `users`
collections, the contents of the upload directory, and a counter providing
fresh ObjectIds. -/
structure AppState where
  predictions : List PredictionResult
  users : List User
  files : List String
  next_id : Nat
deriving DecidableEq

/-- The user upsert inside `POST /predict` (main.py lines 111-118): when
the request carried an email, look the user up by email; when found,
increment `total_predictions` and save; otherwise insert a new user with
that email and the given name (`"Anonymous"` when absent) and the
class-body defaults. -/
def upsert_user_on_predict (classDefTime now : Nat)
    (user_name user_email : Option String) (st : AppState) : AppState :=
  match user_email with
  | none => st
  | some email =>
    match st.users.find? (fun u => u.email == email) with
    | some _ =>
      let users := updateFirst (fun u => u.email == email)
        (fun u => { u with total_predictions := u.total_predictions + 1 }) st.users
      { st with users := users }
    | none =>
      { st with
          users := st.users ++
            [mkUserDefault classDefTime now (toString st.next_id)
              (user_name.getD "Anonymous") email none],
          next_id := st.next_id + 1 }

/-- The `POST /predict` handler (main.py lines 70-131).  `classDefTime` is
the import-time timestamp captured by the `created_at` defaults, `now` is
the wall-clock time of the request, `stamp` is the `strftime` timestamp
prefixed to the saved filename, and `userStepError` is a fault oracle:
`some msg` means the database driver raises an exception with message
`msg` during the user lookup/update step (after the prediction insert has
succeeded), which the handler's catch-all turns into a 500 response. -/
def predict_disease (env : PixEnv) (p : Predictor) (classDefTime now : Nat)
    (t_start t_end : ℚ) (stamp : String) (userStepError : Option String)
    (st : AppState) (req : PredictRequest) :
    ApiResult PredictionResponse × AppState :=
  if startswith req.content_type "image/" = false then
    (ApiResult.err 400 "File must be an image", st)
  else
    match predict env p req.bytes t_start t_end with
    | MLResult.raises e => (ApiResult.err 500 ("Prediction error: " ++ e), st)
    | MLResult.ok out =>
      let user_name := normOpt req.user_name
      let user_email := normOpt req.user_email
      let saved_name : Option String :=
        match req.filename with
        | some fn => if fn = "" then none else some (stamp ++ "_" ++ fn)
        | none => none
      let st_fs : AppState :=
        { st with files := match saved_name with
            | some s => st.files ++ [s]
            | none => st.files }
      if out.predicted_class ∈ class_names then
        let record := mkPredictionResultDefault classDefTime now
          (toString st_fs.next_id) user_name user_email
          (match saved_name with | some s => some s | none => req.filename)
          none out.original_size out.predicted_class out.confidence_score
          out.all_predictions out.processing_time
        let st1 : AppState :=
          { st_fs with
              predictions := st_fs.predictions ++ [record],
              next_id := st_fs.next_id + 1 }
        match userStepError with
        | some msg => (ApiResult.err 500 ("Prediction error: " ++ msg), st1)
        | none =>
          (ApiResult.ok
            { prediction_id := record.id,
              predicted_class := out.predicted_class,
              confidence_score := out.confidence_score,
              all_predictions := out.all_predictions,
              processing_time := out.processing_time,
              created_at := record.created_at,
              image_url := none },
           upsert_user_on_predict classDefTime now user_name user_email st1)
      else
        (ApiResult.err 500 "Prediction error: not a valid DiseaseClass", st_fs)

/-- All per-request inputs of one `POST /predict` call: the imaging
environment, the predictor, the timestamps, the wall-clock readings and
the request itself. -/
structure PredictCall where
  env : PixEnv
  p : Predictor
  classDefTime : Nat
  now : Nat
  t_start : ℚ
  t_end : ℚ
  stamp : String
  req : PredictRequest

/-- The result of one fault-free `POST /predict` call. -/
def run_predict (c : PredictCall) (st : AppState) :
    ApiResult PredictionResponse × AppState :=
  predict_disease c.env c.p c.classDefTime c.now c.t_start c.t_end c.stamp
    none st c.req

/-- The state after one fault-free `POST /predict` call. -/
def run_predict_state (c : PredictCall) (st : AppState) : AppState :=
  (run_predict c st).2

/-- Conversion of a stored document to the response DTO, as in the list
comprehensions of main.py lines 159-169 and 185-195. -/
def toResponse (pr : PredictionResult) : PredictionResponse :=
  { prediction_id := pr.id, predicted_class := pr.predicted_class,
    confidence_score := pr.confidence_score,
    all_predictions := pr.all_predictions,
    processing_time := pr.processing_time, created_at := pr.created_at,
    image_url := none }

/-- Comparator of `.sort([("created_at", -1)])`: newest first. -/
def created_at_desc (a b : PredictionResult) : Bool :=
  decide (b.created_at ≤ a.created_at)

/-- `GET /predictions` (main.py lines 134-169): clamp the limit to 100,
filter by email when one was given (Python treats the empty string as no
filter), sort newest first, then apply skip and limit. -/
def list_predictions (st : AppState) (skip limit : Nat)
    (email : Option String) : List PredictionResponse :=
  let limit := if limit > 100 then 100 else limit
  let query : PredictionResult → Bool :=
    match email with
    | some e => if e = "" then fun _ => true else fun pr => pr.user_email == some e
    | none => fun _ => true
  ((((st.predictions.filter query).mergeSort created_at_desc).drop skip).take
    limit).map toResponse

/-- `GET /user/{email}/predictions` (main.py lines 172-195): the same
pipeline with the filter fixed to the given email. -/
def list_predictions_by_email (st : AppState) (email : String)
    (skip limit : Nat) : List PredictionResponse :=
  let limit := if limit > 100 then 100 else limit
  ((((st.predictions.filter (fun pr => pr.user_email == some email)).mergeSort
      created_at_desc).drop skip).take limit).map toResponse

/-- Claim C4: both list endpoints return at most `min limit 100` items for
every requested limit value — the limit is clamped server-side to 100 — so
a request with `limit = 500` yields at most 100 items and a request with
`limit = 10` yields at most 10. -/
theorem list_predictions_limit_clamped (st : AppState) (skip limit : Nat)
    (email : Option String) (e : String) :
    (list_predictions st skip limit email).length ≤ min limit 100 ∧
    (list_predictions_by_email st e skip limit).length ≤ min limit 100 := by
  constructor
  · simp only [list_predictions, List.length_map, List.length_take]
    by_cases h : limit > 100 <;> simp [h] <;> omega
  · simp only [list_predictions_by_email, List.length_map, List.length_take]
    by_cases h : limit > 100 <;> simp [h] <;> omega

/-! ## Image retrieval (`GET /predictions/{id}/image`) -/

/-- Validity of a string against `bson.ObjectId(...)`: exactly 24
hexadecimal characters. -/
def isValidObjectId (s : String) : Bool :=
  s.length == 24 && s.toList.all (fun c =>
    c.isDigit || ('a' ≤ c && c ≤ 'f') || ('A' ≤ c && c ≤ 'F'))

/-- `GET /predictions/{id}/image` (main.py lines 198-214): 400 on a
malformed id, 404 when the prediction is missing or carries no stored
filename (Python falsiness also rejects an empty filename), 404 when the
file is absent from the upload directory, and otherwise a `FileResponse`
on the stored filename. -/
def get_prediction_image (st : AppState) (prediction_id : String) :
    ApiResult String :=
  if isValidObjectId prediction_id then
    match st.predictions.find? (fun pr => pr.id == prediction_id) with
    | none => ApiResult.err 404 "Image not found"
    | some pred =>
      match pred.image_filename with
      | none => ApiResult.err 404 "Image not found"
      | some fn =>
        if fn = "" then ApiResult.err 404 "Image not found"
        else if st.files.contains fn then ApiResult.ok fn
        else ApiResult.err 404 "Image file missing"
  else ApiResult.err 400 "Invalid prediction id"

/-- Claim C5, counterexample: a malformed prediction id does not yield the
404 NotFound error the claim demands; the handler raises the 400
InvalidInput error `"Invalid prediction id"` (main.py line 204). -/
theorem get_prediction_image_malformed_is_400 :
    get_prediction_image { predictions := [], users := [], files := [], next_id := 0 }
        "not-a-valid-objectid" = ApiResult.err 400 "Invalid prediction id" ∧
      (400 : Nat) ≠ 404 :=
  ⟨rfl, by decide⟩

/-- Claim C5, amended: the image endpoint fails with the 400 InvalidInput
error when the id string is malformed, and with a 404 NotFound error when
the prediction does not exist, when it has no stored image filename
(including Python-falsy empty filenames), or when the underlying file is
missing from disk. -/
theorem get_prediction_image_error_cases (st : AppState) (pid : String) :
    (isValidObjectId pid = false →
      get_prediction_image st pid = ApiResult.err 400 "Invalid prediction id") ∧
    (isValidObjectId pid = true →
      st.predictions.find? (fun pr => pr.id == pid) = none →
      get_prediction_image st pid = ApiResult.err 404 "Image not found") ∧
    (∀ pred, isValidObjectId pid = true →
      st.predictions.find? (fun pr => pr.id == pid) = some pred →
      pred.image_filename = none ∨ pred.image_filename = some "" →
      get_prediction_image st pid = ApiResult.err 404 "Image not found") ∧
    (∀ pred fn, isValidObjectId pid = true →
      st.predictions.find? (fun pr => pr.id == pid) = some pred →
      pred.image_filename = some fn → fn ≠ "" → st.files.contains fn = false →
      get_prediction_image st pid = ApiResult.err 404 "Image file missing") := by
  refine ⟨?_, ?_, ?_, ?_⟩
  · intro h
    simp [get_prediction_image, h]
  · intro h hf
    simp [get_prediction_image, h, hf]
  · rintro pred h hf (hn | hn) <;> simp [get_prediction_image, h, hf, hn]
  · intro pred fn h hf hfn hne hfile
    simp at hfile
    simp [get_prediction_image, h, hf, hfn, hne, hfile]

/-- A small concrete state for the image-endpoint witness: one prediction
without a stored filename and one whose stored file is absent from disk. -/
def stC5 : AppState :=
  { predictions :=
      [mkPredictionResultDefault 0 0 "aaaaaaaaaaaaaaaaaaaaaaaa" none none
        none none (1, 1) "00 Anatomia Normal" 1 [] 0,
       mkPredictionResultDefault 0 0 "bbbbbbbbbbbbbbbbbbbbbbbb" none none
        (some "x.png") none (1, 1) "00 Anatomia Normal" 1 [] 0],
    users := [], files := [], next_id := 0 }

/-- Witness for the amended claim C5: all four error cases at concrete
inputs. -/
theorem get_prediction_image_error_cases_witness :
    get_prediction_image stC5 "zz" = ApiResult.err 400 "Invalid prediction id" ∧
    get_prediction_image stC5 "cccccccccccccccccccccccc" =
      ApiResult.err 404 "Image not found" ∧
    get_prediction_image stC5 "aaaaaaaaaaaaaaaaaaaaaaaa" =
      ApiResult.err 404 "Image not found" ∧
    get_prediction_image stC5 "bbbbbbbbbbbbbbbbbbbbbbbb" =
      ApiResult.err 404 "Image file missing" :=
  ⟨(get_prediction_image_error_cases stC5 "zz").1 rfl,
   (get_prediction_image_error_cases stC5 "cccccccccccccccccccccccc").2.1 rfl rfl,
   (get_prediction_image_error_cases stC5 "aaaaaaaaaaaaaaaaaaaaaaaa").2.2.1 _
     rfl rfl (Or.inl rfl),
   (get_prediction_image_error_cases stC5 "bbbbbbbbbbbbbbbbbbbbbbbb").2.2.2 _
     "x.png" rfl rfl rfl (by decide) rfl⟩

/-! ## Authentication (`app/services/security.py`, `app/main.py`) -/

/-- The `/auth/login` request body (models.py lines 126-128). -/
structure UserLogin where
  email : String
  password : String
deriving DecidableEq

/-- The `/auth` response DTO (models.py lines 131-133); `token_type` has
the class-body default `"bearer"`. -/
structure TokenResponse where
  access_token : String
  token_type : String
deriving DecidableEq

/-- Python falsiness of a `str | None` value: `None` and the empty string
are falsy. -/
def pyFalsyOptStr : Option String → Bool
  | none => true
  | some s => s == ""

/-- `POST /auth/login` (main.py lines 300-310).  `verify` is
`verify_password` from security.py (bcrypt verification, an opaque
collaborator) and `token` is `create_access_token` applied to
`str(user.id)` and the user's email. -/
def login_user (verify : String → String → Bool)
    (token : String → String → String) (users : List User)
    (payload : UserLogin) : ApiResult TokenResponse :=
  match users.find? (fun u => u.email == payload.email) with
  | none => ApiResult.err 401 "Invalid email or password"
  | some user =>
    if pyFalsyOptStr user.hashed_password then
      ApiResult.err 401 "Invalid email or password"
    else if verify payload.password (user.hashed_password.getD "") = false then
      ApiResult.err 401 "Invalid email or password"
    else if user.is_active = false then
      ApiResult.err 403 "User is inactive"
    else
      ApiResult.ok { access_token := token user.id user.email,
                     token_type := "bearer" }

/-- Claim C8: login fails with 401 Unauthorized when the user is missing,
when the stored password hash is absent (None, or Python-falsy empty), or
when the password fails verification; it fails with 403 Forbidden when the
password verifies but the account is deactivated; otherwise it returns a
bearer access token. -/
theorem login_user_cases (verify : String → String → Bool)
    (token : String → String → String) (users : List User)
    (payload : UserLogin) :
    (users.find? (fun u => u.email == payload.email) = none →
      login_user verify token users payload =
        ApiResult.err 401 "Invalid email or password") ∧
    (∀ user, users.find? (fun u => u.email == payload.email) = some user →
      pyFalsyOptStr user.hashed_password = true →
      login_user verify token users payload =
        ApiResult.err 401 "Invalid email or password") ∧
    (∀ user, users.find? (fun u => u.email == payload.email) = some user →
      pyFalsyOptStr user.hashed_password = false →
      verify payload.password (user.hashed_password.getD "") = false →
      login_user verify token users payload =
        ApiResult.err 401 "Invalid email or password") ∧
    (∀ user, users.find? (fun u => u.email == payload.email) = some user →
      pyFalsyOptStr user.hashed_password = false →
      verify payload.password (user.hashed_password.getD "") = true →
      user.is_active = false →
      login_user verify token users payload =
        ApiResult.err 403 "User is inactive") ∧
    (∀ user, users.find? (fun u => u.email == payload.email) = some user →
      pyFalsyOptStr user.hashed_password = false →
      verify payload.password (user.hashed_password.getD "") = true →
      user.is_active = true →
      login_user verify token users payload =
        ApiResult.ok { access_token := token user.id user.email,
                       token_type := "bearer" }) := by
  refine ⟨?_, ?_, ?_, ?_, ?_⟩
  · intro h
    simp [login_user, h]
  · intro user hf hfalsy
    simp [login_user, hf, hfalsy]
  · intro user hf hfalsy hv
    simp [login_user, hf, hfalsy, hv]
  · intro user hf hfalsy hv hact
    simp [login_user, hf, hfalsy, hv, hact]
  · intro user hf hfalsy hv hact
    simp [login_user, hf, hfalsy, hv, hact]

/-- A concrete bcrypt stand-in for witnesses: the password `"good"`
verifies against any stored hash. -/
def vf0 : String → String → Bool := fun pw _ => pw == "good"

/-- A concrete token issuer for witnesses. -/
def tk0 : String → String → String := fun s e => s ++ ":" ++ e

/-- Concrete users for the login witness: an active user with a hash, a
deactivated user with a hash, and a user without a stored hash. -/
def usersC8 : List User :=
  [mkUserDefault 0 0 "1" "Alice" "a@x.com" (some "H"),
   { mkUserDefault 0 0 "2" "Bob" "b@x.com" (some "H") with is_active := false },
   mkUserDefault 0 0 "3" "Carl" "c@x.com" none]

/-- Witness for claim C8: all five login outcomes at concrete inputs. -/
theorem login_user_cases_witness :
    login_user vf0 tk0 usersC8 { email := "zz@x.com", password := "good" } =
      ApiResult.err 401 "Invalid email or password" ∧
    login_user vf0 tk0 usersC8 { email := "c@x.com", password := "good" } =
      ApiResult.err 401 "Invalid email or password" ∧
    login_user vf0 tk0 usersC8 { email := "a@x.com", password := "bad" } =
      ApiResult.err 401 "Invalid email or password" ∧
    login_user vf0 tk0 usersC8 { email := "b@x.com", password := "good" } =
      ApiResult.err 403 "User is inactive" ∧
    login_user vf0 tk0 usersC8 { email := "a@x.com", password := "good" } =
      ApiResult.ok { access_token := "1:a@x.com", token_type := "bearer" } :=
  ⟨(login_user_cases vf0 tk0 usersC8
      { email := "zz@x.com", password := "good" }).1 rfl,
   (login_user_cases vf0 tk0 usersC8
      { email := "c@x.com", password := "good" }).2.1
     (mkUserDefault 0 0 "3" "Carl" "c@x.com" none) rfl rfl,
   (login_user_cases vf0 tk0 usersC8
      { email := "a@x.com", password := "bad" }).2.2.1
     (mkUserDefault 0 0 "1" "Alice" "a@x.com" (some "H")) rfl rfl rfl,
   (login_user_cases vf0 tk0 usersC8
      { email := "b@x.com", password := "good" }).2.2.2.1
     { mkUserDefault 0 0 "2" "Bob" "b@x.com" (some "H") with
         is_active := false } rfl rfl rfl rfl,
   (login_user_cases vf0 tk0 usersC8
      { email := "a@x.com", password := "good" }).2.2.2.2
     (mkUserDefault 0 0 "1" "Alice" "a@x.com" (some "H")) rfl rfl rfl rfl⟩

/-- The `/auth/register` request body (models.py lines 120-123). -/
structure UserCreate where
  name : String
  email : String
  password : String
deriving DecidableEq

/-- `POST /auth/register` (main.py lines 283-297).  `hash` is
`hash_password` from security.py (bcrypt, opaque) and `token` is
`create_access_token`. -/
def register_user (hash : String → String)
    (token : String → String → String) (classDefTime now : Nat)
    (st : AppState) (payload : UserCreate) :
    ApiResult TokenResponse × AppState :=
  match st.users.find? (fun u => u.email == payload.email) with
  | some _ => (ApiResult.err 400 "Email already registered", st)
  | none =>
    let user := mkUserDefault classDefTime now (toString st.next_id)
      payload.name payload.email (some (hash payload.password))
    (ApiResult.ok { access_token := token user.id user.email,
                    token_type := "bearer" },
     { st with users := st.users ++ [user], next_id := st.next_id + 1 })

/-- Claim C9: registering an already-registered email fails with the
duplicate-registration error (the Conflict case of the specification's
taxonomy, raised by the code as HTTP 400 with detail
"Email already registered") and leaves the state unchanged, inserting no
user; otherwise registration appends exactly one new user whose stored
password is the hash of the submitted password, and returns a bearer
access token. -/
theorem register_user_cases (hash : String → String)
    (token : String → String → String) (classDefTime now : Nat)
    (st : AppState) (payload : UserCreate) :
    ((∃ u, st.users.find? (fun v => v.email == payload.email) = some u) →
      register_user hash token classDefTime now st payload =
        (ApiResult.err 400 "Email already registered", st)) ∧
    (st.users.find? (fun v => v.email == payload.email) = none →
      ∃ user : User,
        user.email = payload.email ∧ user.name = payload.name ∧
        user.hashed_password = some (hash payload.password) ∧
        register_user hash token classDefTime now st payload =
          (ApiResult.ok { access_token := token user.id user.email,
                          token_type := "bearer" },
           { st with users := st.users ++ [user],
                     next_id := st.next_id + 1 })) := by
  constructor
  · rintro ⟨u, hu⟩
    simp [register_user, hu]
  · intro hnone
    refine ⟨mkUserDefault classDefTime now (toString st.next_id)
      payload.name payload.email (some (hash payload.password)),
      rfl, rfl, rfl, ?_⟩
    simp [register_user, hnone]

/-- A concrete bcrypt hashing stand-in for witnesses. -/
def vf0Hash : String → String := fun pw => "hash:" ++ pw

/-- The empty application state. -/
def emptyState : AppState :=
  { predictions := [], users := [], files := [], next_id := 0 }

/-- A state that already contains a user registered as `a@x.com`. -/
def stC9dup : AppState :=
  { emptyState with
      users := [mkUserDefault 0 0 "0" "Alice" "a@x.com" (some "hash:pw")] }

/-- Witness for claim C9: registering a fresh email from the empty state
succeeds and stores the hashed password; registering it again fails with
the duplicate-registration error and inserts nothing. -/
theorem register_user_cases_witness :
    (∃ user : User,
      user.email = "a@x.com" ∧ user.name = "Alice" ∧
      user.hashed_password = some (vf0Hash "pw") ∧
      register_user vf0Hash tk0 0 0 emptyState
          { name := "Alice", email := "a@x.com", password := "pw" } =
        (ApiResult.ok { access_token := tk0 user.id user.email,
                        token_type := "bearer" },
         { emptyState with users := emptyState.users ++ [user],
                           next_id := emptyState.next_id + 1 })) ∧
    register_user vf0Hash tk0 0 0 stC9dup
        { name := "Alice", email := "a@x.com", password := "pw" } =
      (ApiResult.err 400 "Email already registered", stC9dup) :=
  ⟨(register_user_cases vf0Hash tk0 0 0 emptyState
      { name := "Alice", email := "a@x.com", password := "pw" }).2 rfl,
   (register_user_cases vf0Hash tk0 0 0 stC9dup
      { name := "Alice", email := "a@x.com", password := "pw" }).1
     ⟨mkUserDefault 0 0 "0" "Alice" "a@x.com" (some "hash:pw"), rfl⟩⟩

/-! ## User statistics (`GET /user/{email}/stats`) and the predict flow -/

/-- The `UserStats` DTO (models.py lines 114-117). -/
structure UserStats where
  total_predictions : Nat
  most_common_prediction : Option String
  average_confidence : ℚ
deriving DecidableEq

/-- The insertion-ordered tally dict built by `get_user_stats`
(main.py lines 265-268). -/
def prediction_counts (classes : List String) : List (String × Nat) :=
  classes.foldl
    (fun acc c =>
      if acc.any (fun kv => kv.1 == c) then
        updateFirst (fun kv => kv.1 == c) (fun kv => (kv.1, kv.2 + 1)) acc
      else acc ++ [(c, 1)])
    []

/-- Python `max(items, key=lambda x: x[1])[0]`: the first key attaining the
maximal count (main.py line 270), `None` on an empty tally. -/
def py_max_by_count : List (String × Nat) → Option String
  | [] => none
  | kv :: rest =>
    some ((rest.foldl (fun best x => if x.2 > best.2 then x else best) kv).1)

/-- `GET /user/{email}/stats` (main.py lines 247-280): 404 when no user
record carries the email; otherwise the statistics are computed from the
prediction documents bearing the email — their count, the most frequent
predicted label, and the average confidence. -/
def get_user_stats (st : AppState) (email : String) : ApiResult UserStats :=
  match st.users.find? (fun u => u.email == email) with
  | none => ApiResult.err 404 "User not found"
  | some _ =>
    let predictions := st.predictions.filter (fun pr => pr.user_email == some email)
    if predictions.isEmpty then
      ApiResult.ok { total_predictions := 0, most_common_prediction := none,
                     average_confidence := 0 }
    else
      ApiResult.ok
        { total_predictions := predictions.length,
          most_common_prediction :=
            py_max_by_count
              (prediction_counts (predictions.map (fun pr => pr.predicted_class))),
          average_confidence :=
            (predictions.map (fun pr => pr.confidence_score)).sum /
              (predictions.length : ℚ) }

/-- Number of stored prediction documents bearing the email — the quantity
`GET /user/{email}/stats` reports as `total_predictions`. -/
def countFor (st : AppState) (e : String) : Nat :=
  (st.predictions.filter (fun pr => pr.user_email == some e)).length

lemma find?_updateFirst_of_found {α : Type} (p : α → Bool) (f : α → α)
    (l : List α) (x : α) (hx : l.find? p = some x) (hfx : p (f x) = true) :
    (updateFirst p f l).find? p = some (f x) := by
  induction l with
  | nil => simp [List.find?] at hx
  | cons a t ih =>
    by_cases ha : p a = true
    · rw [List.find?_cons] at hx
      rw [ha] at hx
      simp only [Option.some.injEq] at hx
      subst hx
      simp [updateFirst, ha, List.find?_cons, hfx]
    · have ha2 : p a = false := by
        cases hpa : p a
        · rfl
        · exact absurd hpa ha
      rw [List.find?_cons, ha2] at hx
      simp only [updateFirst, ha2, Bool.false_eq_true, if_false]
      rw [List.find?_cons, ha2]
      exact ih hx

lemma find?_append_of_none {α : Type} (p : α → Bool) (l : List α) (x : α)
    (hl : l.find? p = none) (hx : p x = true) :
    (l ++ [x]).find? p = some x := by
  rw [List.find?_append, hl]
  simp [List.find?_cons, hx]

lemma normOpt_some_of_ne (e : String) (hne : e ≠ "") :
    normOpt (some e) = some e := by
  simp [normOpt, hne]

lemma upsert_predictions (classDefTime now : Nat)
    (user_name user_email : Option String) (st : AppState) :
    (upsert_user_on_predict classDefTime now user_name user_email st).predictions =
      st.predictions := by
  cases user_email with
  | none => rfl
  | some email =>
    cases h : st.users.find? (fun u => u.email == email) <;>
      simp [upsert_user_on_predict, h]

lemma upsert_users_found (classDefTime now : Nat) (user_name : Option String)
    (e : String) (st : AppState) (u : User)
    (hu : st.users.find? (fun x => x.email == e) = some u) :
    (upsert_user_on_predict classDefTime now user_name (some e) st).users =
      updateFirst (fun x => x.email == e)
        (fun x => { x with total_predictions := x.total_predictions + 1 })
        st.users := by
  simp [upsert_user_on_predict, hu]

lemma upsert_users_missing (classDefTime now : Nat) (user_name : Option String)
    (e : String) (st : AppState)
    (hu : st.users.find? (fun x => x.email == e) = none) :
    (upsert_user_on_predict classDefTime now user_name (some e) st).users =
      st.users ++
        [mkUserDefault classDefTime now (toString st.next_id)
          (user_name.getD "Anonymous") e none] := by
  simp [upsert_user_on_predict, hu]

/-- Symbolic success form of a fault-free `POST /predict` call: the state
update is the insertion of one prediction document bearing the normalized
email, followed by the user upsert. -/
lemma run_predict_shape (c : PredictCall) (st : AppState)
    (m : PILImage → List ℚ) (img : PILImage)
    (hct : startswith c.req.content_type "image/" = true)
    (hm : c.p.model = some m)
    (hdec : c.env.decode c.req.bytes = some img)
    (hlen : ∀ x, (m x).length = 9) :
    ∃ (rec : PredictionResult) (stmid : AppState),
      run_predict_state c st =
        upsert_user_on_predict c.classDefTime c.now (normOpt c.req.user_name)
          (normOpt c.req.user_email) stmid ∧
      stmid.predictions = st.predictions ++ [rec] ∧
      stmid.users = st.users ∧
      stmid.next_id = st.next_id + 1 ∧
      rec.user_email = normOpt c.req.user_email := by
  have hform := predict_ok_form c.env c.p m c.req.bytes c.t_start c.t_end img hm hdec hlen
  have hne : m (proc c.env img) ≠ [] := by
    intro hnil
    have := hlen (proc c.env img)
    rw [hnil] at this
    simp at this
  have hlt9 : np_argmax (m (proc c.env img)) < class_names.length := by
    rw [class_names_length, ← hlen (proc c.env img)]
    exact np_argmax_lt_length _ hne
  have hmem : class_names.getD (np_argmax (m (proc c.env img))) "" ∈ class_names := by
    rw [List.getD_eq_getElem _ _ hlt9]
    exact List.getElem_mem hlt9
  simp only [run_predict_state, run_predict]
  simp only [predict_disease, hct, hform, hmem, Bool.true_eq_false,
    Bool.false_eq_true, if_false, if_true, ite_true, ite_false, if_pos,
    iff_false, not_false_iff]
  exact ⟨_, _, rfl, rfl, rfl, rfl, rfl⟩

/-- One fault-free successful call appends exactly one prediction document
bearing the request email to the documents counted by the stats endpoint. -/
lemma countFor_run_predict (c : PredictCall) (st : AppState)
    (m : PILImage → List ℚ) (img : PILImage) (e : String)
    (hct : startswith c.req.content_type "image/" = true)
    (hm : c.p.model = some m)
    (hdec : c.env.decode c.req.bytes = some img)
    (hlen : ∀ x, (m x).length = 9)
    (he : c.req.user_email = some e) (hne : e ≠ "") :
    countFor (run_predict_state c st) e = countFor st e + 1 := by
  obtain ⟨rec, stmid, hrun, hpred, husers, hnext, hemail⟩ :=
    run_predict_shape c st m img hct hm hdec hlen
  rw [he, normOpt_some_of_ne e hne] at hrun hemail
  rw [countFor, hrun, upsert_predictions, hpred]
  simp only [List.filter_append, List.length_append]
  rw [countFor]
  have : List.filter (fun pr => pr.user_email == some e) [rec] = [rec] := by
    simp [List.filter, hemail]
  rw [this]
  rfl

/-- A fault-free successful call on a state already holding a user with the
request email increments that user's persisted counter by one. -/
lemma users_run_predict_found (c : PredictCall) (st : AppState)
    (m : PILImage → List ℚ) (img : PILImage) (e : String) (u : User)
    (hct : startswith c.req.content_type "image/" = true)
    (hm : c.p.model = some m)
    (hdec : c.env.decode c.req.bytes = some img)
    (hlen : ∀ x, (m x).length = 9)
    (he : c.req.user_email = some e) (hne : e ≠ "")
    (hu : st.users.find? (fun x => x.email == e) = some u) :
    (run_predict_state c st).users.find? (fun x => x.email == e) =
      some { u with total_predictions := u.total_predictions + 1 } := by
  obtain ⟨rec, stmid, hrun, hpred, husers, hnext, hemail⟩ :=
    run_predict_shape c st m img hct hm hdec hlen
  rw [he, normOpt_some_of_ne e hne] at hrun
  rw [hrun, upsert_users_found _ _ _ _ stmid u (by rw [husers]; exact hu),
    husers]
  exact find?_updateFirst_of_found _ _ _ u hu
    (by simpa using List.find?_some hu)

/-- A fault-free successful call on a state with no user carrying the
request email creates one, with the request name (or `"Anonymous"`), a
zero prediction counter, and no password hash. -/
lemma users_run_predict_missing (c : PredictCall) (st : AppState)
    (m : PILImage → List ℚ) (img : PILImage) (e : String)
    (hct : startswith c.req.content_type "image/" = true)
    (hm : c.p.model = some m)
    (hdec : c.env.decode c.req.bytes = some img)
    (hlen : ∀ x, (m x).length = 9)
    (he : c.req.user_email = some e) (hne : e ≠ "")
    (hu : st.users.find? (fun x => x.email == e) = none) :
    (run_predict_state c st).users.find? (fun x => x.email == e) =
      some (mkUserDefault c.classDefTime c.now (toString (st.next_id + 1))
        ((normOpt c.req.user_name).getD "Anonymous") e none) := by
  obtain ⟨rec, stmid, hrun, hpred, husers, hnext, hemail⟩ :=
    run_predict_shape c st m img hct hm hdec hlen
  rw [he, normOpt_some_of_ne e hne] at hrun
  rw [hrun, upsert_users_missing _ _ _ _ stmid (by rw [husers]; exact hu),
    husers, hnext]
  exact find?_append_of_none _ _ _ hu (by simp [mkUserDefault])

/-- Reading the stats endpoint on a state whose user lookup succeeds and
whose matching prediction documents number `n ≥ 1`. -/
lemma get_user_stats_total (st : AppState) (e : String) (u : User) (n : Nat)
    (hfind : st.users.find? (fun x => x.email == e) = some u)
    (hcount : countFor st e = n) (hn : 1 ≤ n) :
    ∃ stats : UserStats, get_user_stats st e = ApiResult.ok stats ∧
      stats.total_predictions = n := by
  have hnil : st.predictions.filter (fun pr => pr.user_email == some e) ≠ [] := by
    intro h0
    rw [countFor, h0] at hcount
    simp at hcount
    omega
  have hemp : (st.predictions.filter (fun pr => pr.user_email == some e)).isEmpty
      = false := List.isEmpty_eq_false.mpr hnil
  simp only [get_user_stats, hfind, hemp, Bool.false_eq_true, if_false,
    ite_false]
  exact ⟨_, rfl, hcount⟩

/-- Claim C6: two sequential fault-free `POST /predict` calls bearing the
same (previously unknown) email make `GET /user/{email}/stats` report
`total_predictions = 2`; moreover, on any successful prediction bearing an
email, a user found by that email has its `total_predictions` counter
incremented and saved, and when none is found a new user record is created
with that email and the given name (`"Anonymous"` when absent). -/
theorem predict_upsert_and_stats (c1 c2 : PredictCall)
    (m1 m2 : PILImage → List ℚ) (img1 img2 : PILImage) (e : String)
    (st0 : AppState)
    (hct1 : startswith c1.req.content_type "image/" = true)
    (hm1 : c1.p.model = some m1)
    (hdec1 : c1.env.decode c1.req.bytes = some img1)
    (hlen1 : ∀ x, (m1 x).length = 9)
    (hct2 : startswith c2.req.content_type "image/" = true)
    (hm2 : c2.p.model = some m2)
    (hdec2 : c2.env.decode c2.req.bytes = some img2)
    (hlen2 : ∀ x, (m2 x).length = 9)
    (he1 : c1.req.user_email = some e)
    (he2 : c2.req.user_email = some e)
    (hne : e ≠ "")
    (hu0 : st0.users.find? (fun x => x.email == e) = none)
    (hp0 : countFor st0 e = 0) :
    (∃ stats : UserStats,
      get_user_stats (run_predict_state c2 (run_predict_state c1 st0)) e =
        ApiResult.ok stats ∧ stats.total_predictions = 2) ∧
    (∀ (c : PredictCall) (m : PILImage → List ℚ) (img : PILImage)
        (st : AppState) (u : User),
      startswith c.req.content_type "image/" = true →
      c.p.model = some m →
      c.env.decode c.req.bytes = some img →
      (∀ x, (m x).length = 9) →
      c.req.user_email = some e →
      st.users.find? (fun x => x.email == e) = some u →
      (run_predict_state c st).users.find? (fun x => x.email == e) =
        some { u with total_predictions := u.total_predictions + 1 }) ∧
    (∀ (c : PredictCall) (m : PILImage → List ℚ) (img : PILImage)
        (st : AppState),
      startswith c.req.content_type "image/" = true →
      c.p.model = some m →
      c.env.decode c.req.bytes = some img →
      (∀ x, (m x).length = 9) →
      c.req.user_email = some e →
      st.users.find? (fun x => x.email == e) = none →
      ∃ v : User,
        (run_predict_state c st).users.find? (fun x => x.email == e) = some v ∧
        v.email = e ∧ v.name = (normOpt c.req.user_name).getD "Anonymous" ∧
        v.total_predictions = 0 ∧ v.hashed_password = none) := by
  refine ⟨?_, ?_, ?_⟩
  · have hfind1 := users_run_predict_missing c1 st0 m1 img1 e
      hct1 hm1 hdec1 hlen1 he1 hne hu0
    have hcount1 := countFor_run_predict c1 st0 m1 img1 e
      hct1 hm1 hdec1 hlen1 he1 hne
    rw [hp0] at hcount1
    have hfind2 := users_run_predict_found c2 (run_predict_state c1 st0)
      m2 img2 e _ hct2 hm2 hdec2 hlen2 he2 hne hfind1
    have hcount2 := countFor_run_predict c2 (run_predict_state c1 st0)
      m2 img2 e hct2 hm2 hdec2 hlen2 he2 hne
    rw [hcount1] at hcount2
    exact get_user_stats_total _ e _ 2 hfind2 hcount2 (by omega)
  · intro c m img st u hct hm hdec hlen he hu
    exact users_run_predict_found c st m img e u hct hm hdec hlen he hne hu
  · intro c m img st hct hm hdec hlen he hu
    refine ⟨mkUserDefault c.classDefTime c.now (toString (st.next_id + 1))
      ((normOpt c.req.user_name).getD "Anonymous") e none, ?_, rfl, rfl, rfl, rfl⟩
    exact users_run_predict_missing c st m img e hct hm hdec hlen he hne hu

/-- A concrete `POST /predict` request used by witnesses. -/
def req0 : PredictRequest :=
  { content_type := "image/png", filename := some "x.png", bytes := [0],
    user_name := some "Alice", user_email := some "a@x.com" }

/-- A concrete call context used by witnesses: the environment `env0`, the
loaded model `m0` and the request `req0`. -/
def c0 : PredictCall :=
  { env := env0, p := ⟨some m0⟩, classDefTime := 0, now := 1, t_start := 0,
    t_end := 1, stamp := "20250101000000000000", req := req0 }

/-- Witness for claim C6 at a concrete call context and the empty state. -/
theorem predict_upsert_and_stats_witness :
    ∃ stats : UserStats,
      get_user_stats (run_predict_state c0 (run_predict_state c0 emptyState))
          "a@x.com" = ApiResult.ok stats ∧ stats.total_predictions = 2 :=
  (predict_upsert_and_stats c0 c0 m0 m0 img0 img0 "a@x.com" emptyState
    rfl rfl rfl (fun _ => rfl) rfl rfl rfl (fun _ => rfl) rfl rfl
    (by decide) rfl rfl).1

/-- Iterated fault-free calls of the same `POST /predict` request. -/
def predict_n (c : PredictCall) : Nat → AppState → AppState
  | 0, st => st
  | Nat.succ k, st => run_predict_state c (predict_n c k st)

lemma predict_n_invariant (c : PredictCall) (m : PILImage → List ℚ)
    (img : PILImage) (e : String) (st0 : AppState)
    (hct : startswith c.req.content_type "image/" = true)
    (hm : c.p.model = some m)
    (hdec : c.env.decode c.req.bytes = some img)
    (hlen : ∀ x, (m x).length = 9)
    (he : c.req.user_email = some e) (hne : e ≠ "")
    (hu0 : st0.users.find? (fun x => x.email == e) = none)
    (hp0 : countFor st0 e = 0) :
    ∀ n : Nat, 1 ≤ n →
      ∃ u : User,
        (predict_n c n st0).users.find? (fun x => x.email == e) = some u ∧
        u.total_predictions = n - 1 ∧ countFor (predict_n c n st0) e = n := by
  intro n
  induction n with
  | zero => omega
  | succ k ih =>
    intro _
    by_cases hk : k = 0
    · subst hk
      refine ⟨_, users_run_predict_missing c st0 m img e
        hct hm hdec hlen he hne hu0, rfl, ?_⟩
      rw [show predict_n c 1 st0 = run_predict_state c (predict_n c 0 st0) from rfl]
      rw [countFor_run_predict c _ m img e hct hm hdec hlen he hne]
      rw [show predict_n c 0 st0 = st0 from rfl, hp0]
    · obtain ⟨u, hf, ht, hc⟩ := ih (by omega)
      refine ⟨{ u with total_predictions := u.total_predictions + 1 },
        users_run_predict_found c _ m img e u hct hm hdec hlen he hne hf,
        ?_, ?_⟩
      · simp only
        omega
      · rw [show predict_n c (k + 1) st0
          = run_predict_state c (predict_n c k st0) from rfl]
        rw [countFor_run_predict c _ m img e hct hm hdec hlen he hne, hc]

/-- Claim C7: a user created by the prediction flow starts with a zero
`total_predictions` counter, so after `n ≥ 1` sequential fault-free
predictions with the same fresh email the stored `User` document carries
`total_predictions = n - 1`, while `GET /user/{email}/stats` reports `n`
because it counts prediction documents instead of reading the counter. -/
theorem user_counter_lags_stats (c : PredictCall) (m : PILImage → List ℚ)
    (img : PILImage) (e : String) (st0 : AppState)
    (hct : startswith c.req.content_type "image/" = true)
    (hm : c.p.model = some m)
    (hdec : c.env.decode c.req.bytes = some img)
    (hlen : ∀ x, (m x).length = 9)
    (he : c.req.user_email = some e) (hne : e ≠ "")
    (hu0 : st0.users.find? (fun x => x.email == e) = none)
    (hp0 : countFor st0 e = 0) (n : Nat) (hn : 1 ≤ n) :
    (∃ u : User,
      (predict_n c n st0).users.find? (fun x => x.email == e) = some u ∧
      u.total_predictions = n - 1) ∧
    (∃ stats : UserStats,
      get_user_stats (predict_n c n st0) e = ApiResult.ok stats ∧
      stats.total_predictions = n) := by
  obtain ⟨u, hf, ht, hc⟩ := predict_n_invariant c m img e st0
    hct hm hdec hlen he hne hu0 hp0 n hn
  exact ⟨⟨u, hf, ht⟩, get_user_stats_total _ e u n hf hc hn⟩

/-- Witness for claim C7 at the concrete call context and `n = 3`. -/
theorem user_counter_lags_stats_witness :
    (∃ u : User,
      (predict_n c0 3 emptyState).users.find? (fun x => x.email == "a@x.com") =
        some u ∧ u.total_predictions = 3 - 1) ∧
    (∃ stats : UserStats,
      get_user_stats (predict_n c0 3 emptyState) "a@x.com" =
        ApiResult.ok stats ∧ stats.total_predictions = 3) :=
  user_counter_lags_stats c0 m0 img0 "a@x.com" emptyState
    rfl rfl rfl (fun _ => rfl) rfl (by decide) rfl rfl 3 (by omega)

/-- Claim C10: `POST /predict` is not atomic on error.  When the insert of
the prediction record has succeeded and a later step (the user
lookup/update, modelled by the fault oracle) raises, the handler returns
the generic 500 error, yet the inserted prediction document remains in the
persisted state and is not rolled back. -/
theorem predict_error_keeps_inserted_record (env : PixEnv) (p : Predictor)
    (classDefTime now : Nat) (t_start t_end : ℚ) (stamp msg : String)
    (st : AppState) (req : PredictRequest) (m : PILImage → List ℚ)
    (img : PILImage)
    (hct : startswith req.content_type "image/" = true)
    (hm : p.model = some m)
    (hdec : env.decode req.bytes = some img)
    (hlen : ∀ x, (m x).length = 9) :
    ∃ rec : PredictionResult,
      (predict_disease env p classDefTime now t_start t_end stamp (some msg)
        st req).1 = ApiResult.err 500 ("Prediction error: " ++ msg) ∧
      (predict_disease env p classDefTime now t_start t_end stamp (some msg)
        st req).2.predictions = st.predictions ++ [rec] ∧
      rec ∈ (predict_disease env p classDefTime now t_start t_end stamp
        (some msg) st req).2.predictions := by
  have hform := predict_ok_form env p m req.bytes t_start t_end img hm hdec hlen
  have hne : m (proc env img) ≠ [] := by
    intro hnil
    have := hlen (proc env img)
    rw [hnil] at this
    simp at this
  have hlt9 : np_argmax (m (proc env img)) < class_names.length := by
    rw [class_names_length, ← hlen (proc env img)]
    exact np_argmax_lt_length _ hne
  have hmem : class_names.getD (np_argmax (m (proc env img))) "" ∈ class_names := by
    rw [List.getD_eq_getElem _ _ hlt9]
    exact List.getElem_mem hlt9
  simp only [predict_disease, hct, hform, hmem, Bool.true_eq_false,
    Bool.false_eq_true, if_false, if_true, ite_true, ite_false, if_pos,
    iff_false, not_false_iff]
  refine ⟨_, trivial, rfl, ?_⟩
  exact List.mem_append_right _ (List.mem_singleton_self _)

/-- Witness for claim C10 at a concrete call context, fault message and the
empty state. -/
theorem predict_error_keeps_inserted_record_witness :
    ∃ rec : PredictionResult,
      (predict_disease env0 ⟨some m0⟩ 0 1 0 1 "20250101000000000000"
        (some "db down") emptyState req0).1 =
        ApiResult.err 500 ("Prediction error: " ++ "db down") ∧
      (predict_disease env0 ⟨some m0⟩ 0 1 0 1 "20250101000000000000"
        (some "db down") emptyState req0).2.predictions =
        emptyState.predictions ++ [rec] ∧
      rec ∈ (predict_disease env0 ⟨some m0⟩ 0 1 0 1 "20250101000000000000"
        (some "db down") emptyState req0).2.predictions :=
  predict_error_keeps_inserted_record env0 ⟨some m0⟩ 0 1 0 1
    "20250101000000000000" "db down" emptyState req0 m0 img0
    rfl rfl rfl (fun _ => rfl)

end MedAI
